import Mathlib

/-!
Verification of the parallel mapper in `src/utils.py` (`parallel_map`).

Shallow embedding notes.

* Python objects that flow through the mapper are modelled by the small
  universe `Obj` (integers, exception objects, lists); raised Python
  exceptions are modelled by `PyError`, and a Python call that may raise is
  a Lean function into `Except PyError _`.
* The embedding covers the `isinstance(iterables, list)` branch of the
  source (all claims speak about input lists); the iterator branch differs
  only in how the warm-up prefix is extracted.
* `use_kwargs` merely selects the Python calling convention
  (`function(**a)` vs `function(a)`); in the embedding an invocation is
  abstractly "apply the work function to the element", so the flag is
  absorbed into the work function and not modelled as a separate field.
* The thread pool runs every submitted task exactly once and
  `future.result()` re-raises a stored exception; since the work function
  is a (deterministic) Lean function, the list of future results in
  submission order is `rest.map function`, independent of scheduling.
  `tqdm` and the `as_completed` loop only display progress, so they are
  identity on the iterated data (`show_progress_bar` is threaded through
  but, faithfully to the source, never affects any result).
* `ThreadPoolExecutor(max_workers=n)` raises `ValueError` when `n <= 0`;
  this is modelled in the `n_jobs ≤ 0` branch.
-/

/-- Python exception objects that can arise in the modelled scenarios. -/
inductive PyError where
  | zeroDivisionError : PyError
  | typeError : PyError
  | valueError : PyError
  | other : String → PyError
deriving DecidableEq

/-- A small universe of Python values flowing through `parallel_map`:
integers, exception objects (error policy `include_errors` stores caught
exceptions in the output list), and lists (needed by `extend_result`). -/
inductive Obj where
  | int : Int → Obj
  | exc : PyError → Obj
  | list : List Obj → Obj

/-- Python's clamped slice index: the `Nat` cut point that `l[:k]` /
`l[k:]` use for a list of length `len` and an integer `k` (negative `k`
counts from the end, clamped at `0`; `k > len` is clamped by
`List.take`/`List.drop` themselves). -/
def pyIndex (len : Nat) (k : Int) : Nat :=
  if 0 ≤ k then k.toNat else ((len : Int) + k).toNat

/-- Python slice `l[:k]`. -/
def pySliceTake (l : List α) (k : Int) : List α :=
  l.take (pyIndex l.length k)

/-- Python slice `l[k:]`. -/
def pySliceDrop (l : List α) (k : Int) : List α :=
  l.drop (pyIndex l.length k)

/-- Line 45 of `src/utils.py`: the warm-up list comprehension
`[function(a) for a in iterables[:front_num]]`.  The comprehension
evaluates left to right and a raised exception propagates at once, so the
embedding stops at the first error. -/
def runWarmup (function : Obj → Except PyError Obj) :
    List Obj → Except PyError (List Obj)
  | [] => .ok []
  | a :: as =>
    match function a with
    | .error e => .error e
    | .ok v =>
      match runWarmup function as with
      | .error e => .error e
      | .ok vs => .ok (v :: vs)

/-- Lines 53-65 of `src/utils.py`: the nested `_add_func(x, output)`.
It is a no-op when `return_output` is false; otherwise the custom
accumulator wins, else `extend_result` selects `output.extend(x)`
(a `TypeError` when `x` is not iterable, i.e. not a list in our universe)
or `output.append(x)`.  The custom accumulator is modelled as a pure
state transformer on the output list. -/
def _add_func (return_output : Bool) (add_func : Option (Obj → List Obj → List Obj))
    (extend_result : Bool) (x : Obj) (output : List Obj) : Except PyError (List Obj) :=
  if return_output = false then .ok output
  else
    match add_func with
    | some g => .ok (g x output)
    | none =>
      if extend_result then
        match x with
        | .list l => .ok (output ++ l)
        | _ => .error .typeError
      else .ok (output ++ [x])

/-- Lines 68-69 of `src/utils.py`: `for x in front: _add_func(x, output)`.
An accumulation error here (e.g. `extend` of a non-iterable) propagates. -/
def foldAdd (af : Obj → List Obj → Except PyError (List Obj)) :
    List Obj → List Obj → Except PyError (List Obj)
  | [], output => .ok output
  | x :: xs, output =>
    match af x output with
    | .error e => .error e
    | .ok output2 => foldAdd af xs output2

/-- Lines 72-75 of `src/utils.py`: the fully serial `n_jobs == 1` loop.
Note there is no `try`/`except` here: any error from `function` or from
accumulation propagates unconditionally. -/
def serialLoop (function : Obj → Except PyError Obj)
    (af : Obj → List Obj → Except PyError (List Obj)) :
    List Obj → List Obj → Except PyError (List Obj)
  | [], output => .ok output
  | a :: as, output =>
    match function a with
    | .error e => .error e
    | .ok x =>
      match af x output with
      | .error e => .error e
      | .ok output2 => serialLoop function af as output2

/-- Line 96 of `src/utils.py`: the body of the guarded harvest,
`_add_func(future.result(), output)`.  `future.result()` re-raises the
task's stored exception; otherwise accumulation runs (and may itself
raise).  Both raises land in the surrounding `except` clause. -/
def harvest (af : Obj → List Obj → Except PyError (List Obj))
    (r : Except PyError Obj) (output : List Obj) : Except PyError (List Obj) :=
  match r with
  | .error e => .error e
  | .ok x => af x output

/-- Lines 94-101 of `src/utils.py`: the ordered collection pass over the
futures (`for _, future in tqdm(enumerate(futures))`), with the
`raise_errors` / `include_errors` policy.  When an exception is recorded
via `_add_func(exception, output)`, a second failure inside that call is
uncaught and propagates. -/
def collect (raise_errors include_errors : Bool)
    (af : Obj → List Obj → Except PyError (List Obj)) :
    List (Except PyError Obj) → List Obj → Except PyError (List Obj)
  | [], output => .ok output
  | r :: rs, output =>
    match harvest af r output with
    | .ok output2 => collect raise_errors include_errors af rs output2
    | .error e =>
      if raise_errors then .error e
      else if include_errors then
        match af (Obj.exc e) output with
        | .ok output2 => collect raise_errors include_errors af rs output2
        | .error e2 => .error e2
      else collect raise_errors include_errors af rs output

/-- `parallel_map` from `src/utils.py` (list-input branch), as a function
from the call's arguments to either a raised `PyError` or the returned
value (`some output` or Python's `None`).  Parameters appear in source
order; `use_kwargs` is absorbed into `function` (see the file header).
`initial_value or list()` yields the given list when it is truthy and a
fresh empty list otherwise — extensionally `(initial_value).getD []`. -/
def parallel_map (iterables : List Obj) (function : Obj → Except PyError Obj)
    (n_jobs : Int) (front_num : Int) (show_progress_bar : Bool)
    (initial_value : Option (List Obj)) (raise_errors : Bool) (include_errors : Bool)
    (extend_result : Bool) (return_output : Bool)
    (add_func : Option (Obj → List Obj → List Obj)) :
    Except PyError (Option (List Obj)) :=
  match runWarmup function (pySliceTake iterables front_num) with
  | .error e => .error e
  | .ok front =>
    let rest := pySliceDrop iterables front_num
    let af := _add_func return_output add_func extend_result
    match foldAdd af front ((initial_value).getD []) with
    | .error e => .error e
    | .ok output1 =>
      if n_jobs = 1 then
        match serialLoop function af rest output1 with
        | .error e => .error e
        | .ok out => .ok (if return_output then some out else none)
      else if n_jobs ≤ 0 then
        .error .valueError
      else
        let futures := rest.map function
        if return_output = false then .ok none
        else
          match collect raise_errors include_errors af futures output1 with
          | .error e => .error e
          | .ok out => .ok (some out)

/-- The arguments on which the warm-up comprehension invokes `function`:
every element up to and including the first one whose invocation raises. -/
def frontCalls (function : Obj → Except PyError Obj) : List Obj → List Obj
  | [] => []
  | a :: as =>
    match function a with
    | .error _ => [a]
    | .ok _ => a :: frontCalls function as

/-- The arguments on which the serial `n_jobs == 1` loop invokes
`function`: the loop aborts right after the first invocation or
accumulation error, so calls stop there. -/
def serialCalls (function : Obj → Except PyError Obj)
    (af : Obj → List Obj → Except PyError (List Obj)) :
    List Obj → List Obj → List Obj
  | [], _ => []
  | a :: as, output =>
    match function a with
    | .error _ => [a]
    | .ok x =>
      match af x output with
      | .error _ => [a]
      | .ok output2 => a :: serialCalls function af as output2

/-- Instrumentation of `parallel_map`: the list of arguments on which the
work `function` is invoked during the call, following the source's control
flow (warm-up comprehension; then either the serial loop, or — once the
pool is successfully created — every remaining element, since all
submitted tasks run to completion at the `as_completed` join even when the
call later raises or returns `None`).  Pooled invocations are listed in
submission order; their concurrent interleaving is abstracted. -/
def parallel_map_calls (iterables : List Obj) (function : Obj → Except PyError Obj)
    (n_jobs : Int) (front_num : Int) (show_progress_bar : Bool)
    (initial_value : Option (List Obj)) (raise_errors : Bool) (include_errors : Bool)
    (extend_result : Bool) (return_output : Bool)
    (add_func : Option (Obj → List Obj → List Obj)) : List Obj :=
  let frontIn := pySliceTake iterables front_num
  let rest := pySliceDrop iterables front_num
  let fc := frontCalls function frontIn
  match runWarmup function frontIn with
  | .error _ => fc
  | .ok front =>
    let af := _add_func return_output add_func extend_result
    match foldAdd af front ((initial_value).getD []) with
    | .error _ => fc
    | .ok output1 =>
      if n_jobs = 1 then fc ++ serialCalls function af rest output1
      else if n_jobs ≤ 0 then fc
      else fc ++ rest

/-- The first stored error among a list of task results, scanning in
submission order (the order of the collection pass). -/
def firstError : List (Except PyError Obj) → Option PyError
  | [] => none
  | .error e :: _ => some e
  | .ok _ :: rs => firstError rs

/-- The entry that the `include_errors` policy accumulates for one task
result: the value on success, the exception object on failure. -/
def entryOf : Except PyError Obj → Obj
  | .ok v => v
  | .error e => Obj.exc e

/-- The work function of the spec's concrete scenarios,
`lambda x: 10 // x` (Python `//` is floor division, raising
`ZeroDivisionError` on `0` and `TypeError` on a non-number). -/
def divTen : Obj → Except PyError Obj
  | .int x => if x = 0 then .error .zeroDivisionError else .ok (.int (Int.fdiv 10 x))
  | _ => .error .typeError

theorem pySlice_take_append_drop (l : List α) (k : Int) :
    pySliceTake l k ++ pySliceDrop l k = l := by
  simp [pySliceTake, pySliceDrop]

theorem _add_func_skip (add_func : Option (Obj → List Obj → List Obj)) (er : Bool)
    (x : Obj) (out : List Obj) : _add_func false add_func er x out = .ok out := rfl

theorem _add_func_append (x : Obj) (out : List Obj) :
    _add_func true none false x out = .ok (out ++ [x]) := rfl

theorem runWarmup_ok (g : Obj → Obj) (l : List Obj) :
    runWarmup (fun a => .ok (g a)) l = .ok (l.map g) := by
  induction l with
  | nil => rfl
  | cons a as ih => simp [runWarmup, ih]

theorem runWarmup_of_isSome (f : Obj → Except PyError Obj) (l : List Obj)
    (h : ∀ a ∈ l, ((f a).toOption).isSome) : ∃ vs, runWarmup f l = .ok vs := by
  induction l with
  | nil => exact ⟨[], rfl⟩
  | cons a as ih =>
    have ha := h a (by simp)
    obtain ⟨v, hv⟩ : ∃ v, f a = .ok v := by
      cases hfa : f a with
      | ok v => exact ⟨v, rfl⟩
      | error e => rw [hfa] at ha; simp [Except.toOption] at ha
    obtain ⟨vs, hvs⟩ := ih (fun b hb => h b (by simp [hb]))
    exact ⟨v :: vs, by simp [runWarmup, hv, hvs]⟩

theorem runWarmup_firstError (f : Obj → Except PyError Obj) (e : PyError) :
    ∀ l : List Obj, firstError (l.map f) = some e → runWarmup f l = .error e := by
  intro l
  induction l with
  | nil => intro h; simp [firstError] at h
  | cons a as ih =>
    intro h
    cases hfa : f a with
    | error e0 =>
      rw [List.map_cons, hfa] at h
      simp only [firstError, Option.some.injEq] at h
      simp [runWarmup, hfa, h]
    | ok v =>
      rw [List.map_cons, hfa] at h
      simp only [firstError] at h
      simp [runWarmup, hfa, ih h]

theorem frontCalls_ok (g : Obj → Obj) (l : List Obj) :
    frontCalls (fun a => .ok (g a)) l = l := by
  induction l with
  | nil => rfl
  | cons a as ih => simp [frontCalls, ih]

theorem frontCalls_of_isSome (f : Obj → Except PyError Obj) (l : List Obj)
    (h : ∀ a ∈ l, ((f a).toOption).isSome) : frontCalls f l = l := by
  induction l with
  | nil => rfl
  | cons a as ih =>
    have ha := h a (by simp)
    cases hfa : f a with
    | error e => rw [hfa] at ha; simp [Except.toOption] at ha
    | ok v => simp [frontCalls, hfa, ih (fun b hb => h b (by simp [hb]))]

theorem frontCalls_le (f : Obj → Except PyError Obj) (l : List Obj) :
    frontCalls f l <+: l := by
  induction l with
  | nil => simp [frontCalls]
  | cons a as ih =>
    cases hfa : f a with
    | error e => exact (by simp [frontCalls, hfa] : frontCalls f (a :: as) = [a]) ▸ ⟨as, rfl⟩
    | ok v =>
      obtain ⟨t, ht⟩ := ih
      exact (by simp [frontCalls, hfa] : frontCalls f (a :: as) = a :: frontCalls f as) ▸
        ⟨t, by rw [List.cons_append, ht]⟩

theorem foldAdd_append (xs : List Obj) : ∀ out : List Obj,
    foldAdd (_add_func true none false) xs out = .ok (out ++ xs) := by
  induction xs with
  | nil => intro out; simp [foldAdd]
  | cons x xs ih => intro out; simp [foldAdd, _add_func, ih]

theorem foldAdd_skip (add_func : Option (Obj → List Obj → List Obj)) (er : Bool)
    (xs out : List Obj) : foldAdd (_add_func false add_func er) xs out = .ok out := by
  induction xs with
  | nil => rfl
  | cons x xs ih => simp [foldAdd, _add_func, ih]

theorem serialLoop_ok (g : Obj → Obj) (xs : List Obj) : ∀ out : List Obj,
    serialLoop (fun a => .ok (g a)) (_add_func true none false) xs out
      = .ok (out ++ xs.map g) := by
  induction xs with
  | nil => intro out; simp [serialLoop]
  | cons x xs ih => intro out; simp [serialLoop, _add_func, ih]

theorem serialLoop_skip (g : Obj → Obj) (add_func : Option (Obj → List Obj → List Obj))
    (er : Bool) (xs out : List Obj) :
    serialLoop (fun a => .ok (g a)) (_add_func false add_func er) xs out = .ok out := by
  induction xs with
  | nil => rfl
  | cons x xs ih => simp [serialLoop, _add_func, ih]

theorem serialLoop_firstError (f : Obj → Except PyError Obj) (e : PyError) :
    ∀ (xs out : List Obj), firstError (xs.map f) = some e →
      serialLoop f (_add_func true none false) xs out = .error e := by
  intro xs
  induction xs with
  | nil => intro out h; simp [firstError] at h
  | cons a as ih =>
    intro out h
    cases hfa : f a with
    | error e0 =>
      rw [List.map_cons, hfa] at h
      simp only [firstError, Option.some.injEq] at h
      simp [serialLoop, hfa, h]
    | ok v =>
      rw [List.map_cons, hfa] at h
      simp only [firstError] at h
      simp [serialLoop, hfa, _add_func, ih _ h]

theorem serialCalls_skip (g : Obj → Obj) (add_func : Option (Obj → List Obj → List Obj))
    (er : Bool) (xs out : List Obj) :
    serialCalls (fun a => .ok (g a)) (_add_func false add_func er) xs out = xs := by
  induction xs with
  | nil => rfl
  | cons x xs ih => simp [serialCalls, _add_func, ih]

theorem collect_ok (re ie : Bool) (g : Obj → Obj) (l : List Obj) : ∀ out : List Obj,
    collect re ie (_add_func true none false) (l.map (fun a => .ok (g a))) out
      = .ok (out ++ l.map g) := by
  induction l with
  | nil => intro out; simp [collect]
  | cons a as ih => intro out; simp [collect, harvest, _add_func, ih]

theorem collect_raise (ie : Bool) (e : PyError) :
    ∀ (rs : List (Except PyError Obj)) (out : List Obj), firstError rs = some e →
      collect true ie (_add_func true none false) rs out = .error e := by
  intro rs
  induction rs with
  | nil => intro out h; simp [firstError] at h
  | cons r rs ih =>
    intro out h
    cases r with
    | error e0 =>
      simp only [firstError, Option.some.injEq] at h
      simp [collect, harvest, h]
    | ok v =>
      simp only [firstError] at h
      simp [collect, harvest, _add_func, ih _ h]

theorem collect_entries (rs : List (Except PyError Obj)) : ∀ out : List Obj,
    collect false true (_add_func true none false) rs out = .ok (out ++ rs.map entryOf) := by
  induction rs with
  | nil => intro out; simp [collect]
  | cons r rs ih =>
    intro out
    cases r with
    | error e0 => simp [collect, harvest, _add_func, entryOf, ih]
    | ok v => simp [collect, harvest, _add_func, entryOf, ih]

theorem collect_drop (rs : List (Except PyError Obj)) : ∀ out : List Obj,
    collect false false (_add_func true none false) rs out
      = .ok (out ++ rs.filterMap Except.toOption) := by
  induction rs with
  | nil => intro out; simp [collect]
  | cons r rs ih =>
    intro out
    cases r with
    | error e0 => simp [collect, harvest, Except.toOption, ih]
    | ok v => simp [collect, harvest, _add_func, Except.toOption, ih]

theorem toOption_ok (v : Obj) : (Except.ok v : Except PyError Obj).toOption = some v := rfl

theorem toOption_error (e : PyError) :
    (Except.error e : Except PyError Obj).toOption = none := rfl

theorem length_filterMap_toOption (f : Obj → Except PyError Obj) (inputs : List Obj) :
    (inputs.filterMap (fun a => (f a).toOption)).length
      + inputs.countP (fun a => ((f a).toOption).isNone) = inputs.length := by
  induction inputs with
  | nil => rfl
  | cons a as ih =>
    cases hfa : f a with
    | ok v =>
      simp only [List.filterMap_cons, List.countP_cons, hfa, toOption_ok,
        Option.isNone_some, List.length_cons]
      simp only [Bool.false_eq_true, if_false]
      omega
    | error e =>
      simp only [List.filterMap_cons, List.countP_cons, hfa, toOption_error,
        Option.isNone_none, List.length_cons]
      simp only [if_true]
      omega

theorem parallel_map_all_ok (g : Obj → Obj) (inputs : List Obj) (n_jobs front_num : Int)
    (sp : Bool) (iv : Option (List Obj)) (re ie : Bool) (h1 : 1 ≤ n_jobs) :
    parallel_map inputs (fun a => .ok (g a)) n_jobs front_num sp iv re ie false true none
      = .ok (some (iv.getD [] ++ inputs.map g)) := by
  unfold parallel_map
  rw [runWarmup_ok]
  simp only [foldAdd_append]
  by_cases hn : n_jobs = 1
  · simp only [hn, if_pos rfl, serialLoop_ok]
    simp [List.append_assoc, ← List.map_append, pySlice_take_append_drop]
  · have hn0 : ¬ n_jobs ≤ 0 := by omega
    simp only [if_neg hn, if_neg hn0]
    rw [if_neg (by decide : ¬(true = false))]
    rw [collect_ok]
    simp [List.append_assoc, ← List.map_append, pySlice_take_append_drop]

theorem parallel_map_none_ok (g : Obj → Obj) (inputs : List Obj) (n_jobs front_num : Int)
    (sp : Bool) (iv : Option (List Obj)) (re ie er : Bool)
    (af : Option (Obj → List Obj → List Obj)) (h1 : 1 ≤ n_jobs) :
    parallel_map inputs (fun a => .ok (g a)) n_jobs front_num sp iv re ie er false af
      = .ok none := by
  unfold parallel_map
  rw [runWarmup_ok]
  simp only [foldAdd_skip]
  by_cases hn : n_jobs = 1
  · rw [if_pos hn, serialLoop_skip]
    rfl
  · rw [if_neg hn, if_neg (by omega : ¬ n_jobs ≤ 0)]
    rfl

theorem parallel_map_calls_ok (g : Obj → Obj) (inputs : List Obj) (n_jobs front_num : Int)
    (sp : Bool) (iv : Option (List Obj)) (re ie er : Bool)
    (af : Option (Obj → List Obj → List Obj)) (h1 : 1 ≤ n_jobs) :
    parallel_map_calls inputs (fun a => .ok (g a)) n_jobs front_num sp iv re ie er false af
      = inputs := by
  simp only [parallel_map_calls]
  rw [runWarmup_ok]
  simp only [foldAdd_skip, frontCalls_ok]
  by_cases hn : n_jobs = 1
  · rw [if_pos hn, serialCalls_skip]
    exact pySlice_take_append_drop inputs front_num
  · rw [if_neg hn, if_neg (by omega : ¬ n_jobs ≤ 0)]
    exact pySlice_take_append_drop inputs front_num

/-- C1: with a failure-free work function, `appendMode = Append`, no
`initialResult`, no custom accumulator, `returnOutput = true`,
`workerCount ≥ 1` and `0 ≤ warmupCount ≤ N`, the call returns exactly
`[work(x) for x in inputs]` in input order — warm-up results first, then
dispatched results by original index.  The right-hand side does not
mention `n_jobs`, so the output for `workerCount = 1` and
`workerCount > 1` is identical. -/
theorem C1_map_in_input_order (g : Obj → Obj) (inputs : List Obj)
    (n_jobs front_num : Int) (sp re ie : Bool)
    (h1 : 1 ≤ n_jobs) (h2 : 0 ≤ front_num) (h3 : front_num ≤ (inputs.length : Int)) :
    parallel_map inputs (fun a => .ok (g a)) n_jobs front_num sp none re ie false true none
      = .ok (some (inputs.map g)) := by
  have h := parallel_map_all_ok g inputs n_jobs front_num sp none re ie h1
  simpa using h

/-- Witness for C1 at a concrete input. -/
theorem C1_map_in_input_order_witness :
    (1 : Int) ≤ 2 ∧ (0 : Int) ≤ 1
      ∧ (1 : Int) ≤ (([Obj.int 1, Obj.int 2] : List Obj).length : Int)
      ∧ parallel_map [Obj.int 1, Obj.int 2] (fun a => .ok a) 2 1 true none false false false
          true none = .ok (some [Obj.int 1, Obj.int 2]) :=
  ⟨by decide, by decide, by decide,
    C1_map_in_input_order (fun a => a) [Obj.int 1, Obj.int 2] 2 1 true false false
      (by decide) (by decide) (by decide)⟩

/-- C2: at the spec's concrete scenario `inputs = [2, 0, 4]`,
`work = lambda x: 10 // x`, `workerCount = 1`, `warmupCount = 0`,
`onError = CollectAsEntry` (`raise_errors = False`,
`include_errors = True`), the serial `n_jobs == 1` loop has no
`try`/`except`, so the call raises `ZeroDivisionError` instead of
returning `[5, <error>, 2]`; the very same configuration with
`workerCount = 2` does return `[5, <error>, 2]`, showing the error
policy is applied only on the pooled path. -/
theorem C2_serial_path_ignores_policy :
    parallel_map [Obj.int 2, Obj.int 0, Obj.int 4] divTen 1 0 true none false true false
        true none = .error .zeroDivisionError ∧
    parallel_map [Obj.int 2, Obj.int 0, Obj.int 4] divTen 2 0 true none false true false
        true none = .ok (some [Obj.int 5, Obj.exc .zeroDivisionError, Obj.int 2]) :=
  ⟨rfl, rfl⟩

/-- C3: under `onError = Raise` (`raise_errors = true`) with
`returnOutput = true`, Append accumulation and no custom accumulator, if
every warm-up input succeeds and some post-warm-up input fails, the call
raises exactly the underlying error of the first failure in submission
order and returns no output collection. -/
theorem C3_raise_aborts (f : Obj → Except PyError Obj) (inputs : List Obj)
    (n_jobs front_num : Int) (sp ie : Bool) (iv : Option (List Obj)) (e : PyError)
    (h1 : 1 ≤ n_jobs)
    (hwarm : ∀ a ∈ pySliceTake inputs front_num, ((f a).toOption).isSome)
    (hfail : firstError ((pySliceDrop inputs front_num).map f) = some e) :
    parallel_map inputs f n_jobs front_num sp iv true ie false true none = .error e := by
  obtain ⟨vs, hvs⟩ := runWarmup_of_isSome f _ hwarm
  unfold parallel_map
  rw [hvs]
  simp only [foldAdd_append]
  by_cases hn : n_jobs = 1
  · rw [if_pos hn, serialLoop_firstError f e _ _ hfail]
  · rw [if_neg hn, if_neg (by omega : ¬ n_jobs ≤ 0),
      if_neg (by decide : ¬(true = false)), collect_raise ie e _ _ hfail]

/-- Witness for C3 at a concrete input. -/
theorem C3_raise_aborts_witness :
    parallel_map [Obj.int 1, Obj.int 0, Obj.int 5] divTen 2 1 true none true true false
        true none = .error .zeroDivisionError :=
  C3_raise_aborts divTen [Obj.int 1, Obj.int 0, Obj.int 5] 2 1 true true none
    .zeroDivisionError (by decide) (by decide) (by decide)

/-- C4 counterexample: the claim leaves `workerCount` unconstrained, but
with `workerCount = 1` and a failing input the serial loop raises instead
of producing a length-N collection with the error object in place —
`inputs = [0, 5]`, `work = lambda x: 10 // x`, `warmupCount = 0`,
`CollectAsEntry`: the call raises `ZeroDivisionError`, output has no
length at all. -/
theorem C4_counterexample_serial :
    parallel_map [Obj.int 0, Obj.int 5] divTen 1 0 true none false true false true none
      = .error .zeroDivisionError := rfl

/-- C4 (amended with `workerCount ≥ 2`, the pooled collection pass):
under `CollectAsEntry` with Append, `warmupCount = 0`,
`returnOutput = true` and no `initialResult`, the output is the pointwise
outcome entry of each input — value on success, the error object exactly
at each failing index — so its length is exactly N. -/
theorem C4_collect_as_entry (f : Obj → Except PyError Obj) (inputs : List Obj)
    (n_jobs : Int) (sp : Bool) (h : 2 ≤ n_jobs) :
    parallel_map inputs f n_jobs 0 sp none false true false true none
      = .ok (some (inputs.map (fun a => entryOf (f a)))) ∧
    (inputs.map (fun a => entryOf (f a))).length = inputs.length := by
  constructor
  · unfold parallel_map
    rw [show pySliceTake inputs (0 : Int) = [] from by simp [pySliceTake, pyIndex]]
    rw [show pySliceDrop inputs (0 : Int) = inputs from by simp [pySliceDrop, pyIndex]]
    simp only [runWarmup, foldAdd]
    rw [if_neg (by omega : ¬ n_jobs = 1), if_neg (by omega : ¬ n_jobs ≤ 0),
      if_neg (by decide : ¬(true = false)), collect_entries]
    simp [List.map_map, Function.comp]
  · simp

/-- Witness for the amended C4 at a concrete input. -/
theorem C4_collect_as_entry_witness :
    parallel_map [Obj.int 2, Obj.int 0] divTen 3 0 true none false true false true none
      = .ok (some [Obj.int 5, Obj.exc .zeroDivisionError]) ∧
    (([Obj.int 2, Obj.int 0] : List Obj).map (fun a => entryOf (divTen a))).length
      = ([Obj.int 2, Obj.int 0] : List Obj).length :=
  C4_collect_as_entry divTen [Obj.int 2, Obj.int 0] 3 true (by decide)

/-- C5 counterexample: the claim leaves `workerCount` unconstrained, but
with `workerCount = 1` and a failing input the serial loop raises instead
of silently dropping the failure — `inputs = [1, 0]`,
`work = lambda x: 10 // x`, `warmupCount = 0`, `Suppress`
(`raise_errors = False`, `include_errors = False`): the call raises
`ZeroDivisionError` instead of returning `[10]`. -/
theorem C5_counterexample_serial :
    parallel_map [Obj.int 1, Obj.int 0] divTen 1 0 true none false false false true none
      = .error .zeroDivisionError := rfl

/-- C5 (amended with `workerCount ≥ 2`, the pooled collection pass):
under `Suppress` with Append, `warmupCount = 0`, `returnOutput = true`
and no `initialResult`, the output is exactly the successful results in
input order and its length is N minus the number of failing inputs;
nothing is raised and nothing records which inputs failed. -/
theorem C5_suppress (f : Obj → Except PyError Obj) (inputs : List Obj)
    (n_jobs : Int) (sp : Bool) (h : 2 ≤ n_jobs) :
    parallel_map inputs f n_jobs 0 sp none false false false true none
      = .ok (some (inputs.filterMap (fun a => (f a).toOption))) ∧
    (inputs.filterMap (fun a => (f a).toOption)).length
      = inputs.length - inputs.countP (fun a => ((f a).toOption).isNone) := by
  constructor
  · unfold parallel_map
    rw [show pySliceTake inputs (0 : Int) = [] from by simp [pySliceTake, pyIndex]]
    rw [show pySliceDrop inputs (0 : Int) = inputs from by simp [pySliceDrop, pyIndex]]
    simp only [runWarmup, foldAdd]
    rw [if_neg (by omega : ¬ n_jobs = 1), if_neg (by omega : ¬ n_jobs ≤ 0),
      if_neg (by decide : ¬(true = false)), collect_drop]
    simp only [List.filterMap_map, List.nil_append]
    rfl
  · have := length_filterMap_toOption f inputs
    omega

/-- Witness for the amended C5 at a concrete input. -/
theorem C5_suppress_witness :
    parallel_map [Obj.int 5, Obj.int 0, Obj.int 2] divTen 2 0 true none false false false
        true none = .ok (some [Obj.int 2, Obj.int 5]) ∧
    (([Obj.int 5, Obj.int 0, Obj.int 2] : List Obj).filterMap
        (fun a => (divTen a).toOption)).length
      = ([Obj.int 5, Obj.int 0, Obj.int 2] : List Obj).length
        - ([Obj.int 5, Obj.int 0, Obj.int 2] : List Obj).countP
            (fun a => ((divTen a).toOption).isNone) :=
  C5_suppress divTen [Obj.int 5, Obj.int 0, Obj.int 2] 2 true (by decide)

/-- C6: if the work function fails on a warm-up input, the first such
error propagates to the caller for every configuration and every error
policy, no result is returned, and the invocation trace is a prefix of
the warm-up inputs — in particular no post-warm-up input is ever
dispatched. -/
theorem C6_warmup_failure_propagates (f : Obj → Except PyError Obj) (inputs : List Obj)
    (n_jobs front_num : Int) (sp : Bool) (iv : Option (List Obj))
    (re ie er ro : Bool) (af : Option (Obj → List Obj → List Obj)) (e : PyError)
    (hfail : firstError ((pySliceTake inputs front_num).map f) = some e) :
    parallel_map inputs f n_jobs front_num sp iv re ie er ro af = .error e ∧
    parallel_map_calls inputs f n_jobs front_num sp iv re ie er ro af
      <+: pySliceTake inputs front_num := by
  have hw := runWarmup_firstError f e _ hfail
  constructor
  · unfold parallel_map
    rw [hw]
  · simp only [parallel_map_calls]
    rw [hw]
    exact frontCalls_le f _

/-- Witness for C6 at a concrete input. -/
theorem C6_warmup_failure_witness :
    parallel_map [Obj.int 1, Obj.int 0, Obj.int 2] divTen 4 2 true none false true false
        true none = .error .zeroDivisionError ∧
    parallel_map_calls [Obj.int 1, Obj.int 0, Obj.int 2] divTen 4 2 true none false true
        false true none <+: pySliceTake [Obj.int 1, Obj.int 0, Obj.int 2] 2 :=
  C6_warmup_failure_propagates divTen [Obj.int 1, Obj.int 0, Obj.int 2] 4 2 true none
    false true false true none .zeroDivisionError (by decide)

/-- C7: with `returnOutput = false` and a failure-free work function, the
call returns Python's `None` for every configuration (`workerCount ≥ 1`,
any policy, any accumulator), yet the work function is still invoked
exactly once per input — the invocation trace is the whole input list;
and with `returnOutput = true` (Append, no custom accumulator) the
accumulated output collection itself is what the call returns. -/
theorem C7_return_output (g : Obj → Obj) (inputs : List Obj) (n_jobs front_num : Int)
    (sp : Bool) (iv : Option (List Obj)) (re ie er : Bool)
    (af : Option (Obj → List Obj → List Obj)) (h1 : 1 ≤ n_jobs) :
    parallel_map inputs (fun a => .ok (g a)) n_jobs front_num sp iv re ie er false af
      = .ok none ∧
    parallel_map_calls inputs (fun a => .ok (g a)) n_jobs front_num sp iv re ie er false af
      = inputs ∧
    parallel_map inputs (fun a => .ok (g a)) n_jobs front_num sp iv re ie false true none
      = .ok (some (iv.getD [] ++ inputs.map g)) :=
  ⟨parallel_map_none_ok g inputs n_jobs front_num sp iv re ie er af h1,
   parallel_map_calls_ok g inputs n_jobs front_num sp iv re ie er af h1,
   parallel_map_all_ok g inputs n_jobs front_num sp iv re ie h1⟩

/-- Witness for C7 at a concrete input (serial path, custom flags on). -/
theorem C7_return_output_witness :
    parallel_map [Obj.int 7, Obj.int 8] (fun a => .ok a) 1 1 true (some [Obj.int 9])
        true false true false none = .ok none ∧
    parallel_map_calls [Obj.int 7, Obj.int 8] (fun a => .ok a) 1 1 true (some [Obj.int 9])
        true false true false none = [Obj.int 7, Obj.int 8] ∧
    parallel_map [Obj.int 7, Obj.int 8] (fun a => .ok a) 1 1 true (some [Obj.int 9])
        true false false true none = .ok (some [Obj.int 9, Obj.int 7, Obj.int 8]) :=
  C7_return_output (fun a => a) [Obj.int 7, Obj.int 8] 1 1 true (some [Obj.int 9])
    true false true none (by decide)

/-- C8 counterexample: the documented preconditions are not checked.
With `warmupCount = -1` on `[1, 2, 3]` the call raises nothing at all and
completes normally (Python slicing with a negative index still partitions
the list); with `workerCount = 0` an error is raised, but only at
thread-pool creation, after the work function has already been invoked on
the warm-up input — the invocation trace is `[1]`, contradicting "before
invoking the work function on any input". -/
theorem C8_counterexample_no_fail_fast :
    parallel_map [Obj.int 1, Obj.int 2, Obj.int 3] (fun a => .ok a) 2 (-1) true none
        false true false true none = .ok (some [Obj.int 1, Obj.int 2, Obj.int 3]) ∧
    parallel_map [Obj.int 1] (fun a => .ok a) 0 1 true none false true false true none
      = .error .valueError ∧
    parallel_map_calls [Obj.int 1] (fun a => .ok a) 0 1 true none false true false true none
      = [Obj.int 1] :=
  ⟨rfl, rfl, rfl⟩

/-- C8 (amended): the preconditions `workerCount ≥ 1` and
`warmupCount ≥ 0` are documented but never validated.  (1) With
`workerCount ≤ 0` and failure-free work on a list input, an error
(`ValueError` from thread-pool creation) is raised only after the warm-up
phase has invoked the work function on every warm-up input.  (2) With
`warmupCount < 0` on a list input no error is raised at all: the negative
slice still partitions the input and the call completes normally with the
full mapped output. -/
theorem C8_amended_no_validation :
    (∀ (g : Obj → Obj) (inputs : List Obj) (n_jobs front_num : Int) (sp : Bool),
      n_jobs ≤ 0 →
        parallel_map inputs (fun a => .ok (g a)) n_jobs front_num sp none false true
            false true none = .error .valueError ∧
        parallel_map_calls inputs (fun a => .ok (g a)) n_jobs front_num sp none false true
            false true none = pySliceTake inputs front_num) ∧
    (∀ (g : Obj → Obj) (inputs : List Obj) (n_jobs front_num : Int) (sp : Bool),
      front_num < 0 → 1 ≤ n_jobs →
        parallel_map inputs (fun a => .ok (g a)) n_jobs front_num sp none false true
            false true none = .ok (some (inputs.map g))) := by
  constructor
  · intro g inputs n_jobs front_num sp hn
    constructor
    · unfold parallel_map
      rw [runWarmup_ok]
      simp only [foldAdd_append]
      rw [if_neg (by omega : ¬ n_jobs = 1), if_pos (by omega : n_jobs ≤ 0)]
    · simp only [parallel_map_calls]
      rw [runWarmup_ok]
      simp only [foldAdd_append, frontCalls_ok]
      rw [if_neg (by omega : ¬ n_jobs = 1), if_pos (by omega : n_jobs ≤ 0)]
  · intro g inputs n_jobs front_num sp _ h1
    have h := parallel_map_all_ok g inputs n_jobs front_num sp none false true h1
    simpa using h

/-- Witness for the amended C8 at concrete inputs (one per conjunct). -/
theorem C8_amended_no_validation_witness :
    parallel_map [Obj.int 1] (fun a => .ok a) (-2) 1 true none false true false true none
      = .error .valueError ∧
    parallel_map_calls [Obj.int 1] (fun a => .ok a) (-2) 1 true none false true false
        true none = pySliceTake [Obj.int 1] 1 ∧
    parallel_map [Obj.int 4, Obj.int 5] (fun a => .ok a) 1 (-1) true none false true false
        true none = .ok (some [Obj.int 4, Obj.int 5]) :=
  ⟨(C8_amended_no_validation.1 (fun a => a) [Obj.int 1] (-2) 1 true (by decide)).1,
   (C8_amended_no_validation.1 (fun a => a) [Obj.int 1] (-2) 1 true (by decide)).2,
   C8_amended_no_validation.2 (fun a => a) [Obj.int 4, Obj.int 5] 1 (-1) true
     (by decide) (by decide)⟩

/-- C9: `show_progress_bar` is purely cosmetic — toggling it changes
neither the returned value nor the raised error nor the invocation trace
of the work function, for every input list, work function and
configuration. -/
theorem C9_progress_cosmetic (inputs : List Obj) (f : Obj → Except PyError Obj)
    (n_jobs front_num : Int) (iv : Option (List Obj)) (re ie er ro : Bool)
    (af : Option (Obj → List Obj → List Obj)) :
    parallel_map inputs f n_jobs front_num true iv re ie er ro af
      = parallel_map inputs f n_jobs front_num false iv re ie er ro af ∧
    parallel_map_calls inputs f n_jobs front_num true iv re ie er ro af
      = parallel_map_calls inputs f n_jobs front_num false iv re ie er ro af :=
  ⟨rfl, rfl⟩

/-- C10: with `returnOutput = false` and `workerCount ≥ 2`, provided the
warm-up inputs all succeed, the call returns Python's `None` and no
post-warm-up task failure ever propagates — results are never harvested
on this path — for every error policy including `raise_errors = true`;
every input is still dispatched and run (the invocation trace is the
whole input list). -/
theorem C10_no_return_no_harvest (f : Obj → Except PyError Obj) (inputs : List Obj)
    (n_jobs front_num : Int) (sp : Bool) (iv : Option (List Obj)) (re ie er : Bool)
    (af : Option (Obj → List Obj → List Obj)) (h1 : 2 ≤ n_jobs)
    (hwarm : ∀ a ∈ pySliceTake inputs front_num, ((f a).toOption).isSome) :
    parallel_map inputs f n_jobs front_num sp iv re ie er false af = .ok none ∧
    parallel_map_calls inputs f n_jobs front_num sp iv re ie er false af = inputs := by
  obtain ⟨vs, hvs⟩ := runWarmup_of_isSome f _ hwarm
  constructor
  · unfold parallel_map
    rw [hvs]
    simp only [foldAdd_skip]
    rw [if_neg (by omega : ¬ n_jobs = 1), if_neg (by omega : ¬ n_jobs ≤ 0)]
    rfl
  · simp only [parallel_map_calls]
    rw [hvs]
    simp only [foldAdd_skip]
    rw [if_neg (by omega : ¬ n_jobs = 1), if_neg (by omega : ¬ n_jobs ≤ 0),
      frontCalls_of_isSome f _ hwarm]
    exact pySlice_take_append_drop inputs front_num

/-- Witness for C10 at a concrete input: a post-warm-up failure under
`raise_errors = true` still yields `None` with no error. -/
theorem C10_no_return_no_harvest_witness :
    parallel_map [Obj.int 1, Obj.int 0] divTen 2 1 true none true true false false none
      = .ok none ∧
    parallel_map_calls [Obj.int 1, Obj.int 0] divTen 2 1 true none true true false false none
      = [Obj.int 1, Obj.int 0] :=
  C10_no_return_no_harvest divTen [Obj.int 1, Obj.int 0] 2 1 true none true true false none
    (by decide) (by decide)
